import Mathlib

/-
Verification of the WSI_preprocessing tile pipeline
(src/SlidePreprocessing.py and src/TileQualityFilters.py).

Shallow embedding conventions:
* Python ints are modelled as Nat (all quantities of interest here --
  sizes, magnifications, coordinates, the overlap divisor -- are
  non-negative in every reachable configuration of the pipeline).
* Python float arithmetic (best_size's natural_mag / mag, the Laplace
  variance) is idealised as exact rational / natural arithmetic:
  int(size * (n / m)) over non-negative ints is floor(size*n/m), which is
  Nat division size * n / m.
* Exceptions are Except String: a .error value models an uncaught Python
  exception escaping the function; appends to the module-global errors
  list are modelled by explicit error-record lists in each result.
* External collaborators (OpenSlide region reading, TissueMask,
  TileNormalization.normalizeStaining, PIL image loading) are modelled as
  oracle function parameters; the file system holding the three stage
  manifest CSV files is an explicit FileState record threaded through
  the orchestrator.
-/

/-- Slide metadata, as exposed by the external TissueSlide wrapper:
identifier, source path, native magnification, pixel dimensions
(width, height) and the SCALE factor. -/
structure TissueSlide where
  id : String
  path : String
  magnification : Nat
  dimensions : Nat × Nat
  SCALE : Nat
deriving DecidableEq

/-- One manifest row, with the column schema
patient_id, x, y, magnification, size, path_to_slide, scale. -/
structure TileRecord where
  patient_id : String
  x : Nat
  y : Nat
  magnification : Nat
  size : Nat
  path_to_slide : String
  scale : Nat
deriving DecidableEq

/-- An error record (slide id, path, message, stage), as appended to the
errors lists in SlidePreprocessing.py. -/
structure ErrorRecord where
  patient_id : String
  path : String
  message : String
  stage : String
deriving DecidableEq

/-- A per-slide outcome record (patient_id, path, total_tiles, blur), as
appended to summary by preprocessing. -/
structure OutcomeRecord where
  patient_id : String
  path : String
  total_tiles : Option Nat
  blur : Option Nat
deriving DecidableEq

/-- Python range(0, stop, step) over naturals: raises ValueError when the
step is zero, otherwise yields the multiples of step below stop.  A
negative Python stop (slide smaller than the extraction window) is
already truncated to 0 by the caller's Nat subtraction, and both give the
empty range. -/
def pyRange (stop step : Nat) : Except String (List Nat) :=
  if step = 0 then Except.error "range() arg 3 must not be zero"
  else Except.ok ((List.range ((stop + step - 1) / step)).map (fun k => k * step))

/-- best_size from SlidePreprocessing.py: None when the desired
magnification exceeds the slide's native magnification, otherwise
int(size * (natural_mag / mag)) = size * natural_mag / mag. -/
def best_size (slide : TissueSlide) (size mag : Nat) : Option Nat :=
  if slide.magnification < mag then none
  else some (size * slide.magnification / mag)

/-- The stride computed at the top of the tiling loop:
desired_size // overlap when overlap is nonzero, else the extraction
size. -/
def strideOf (size desired_size overlap : Nat) : Nat :=
  if overlap ≠ 0 then desired_size / overlap else size

/-- The tile image filename written by tiling.  Note that the mag field
is ts.magnification, the slide's native magnification. -/
def tileFileName (ts : TissueSlide) (size x y : Nat) : String :=
  ts.id ++ "_tile_w" ++ toString x ++ "_h" ++ toString y ++ "_mag" ++
    toString ts.magnification ++ "_size" ++ toString size ++ "_scale" ++
    toString ts.SCALE ++ ".png"

/-- The manifest row appended by tiling for an accepted origin (x, y). -/
def mkTileRecord (ts : TissueSlide) (tilesDir : String) (size x y : Nat) : TileRecord :=
  ⟨ts.id, x, y, ts.magnification, size, tilesDir ++ "/" ++ tileFileName ts size x y, ts.SCALE⟩

/-- Observable outcome of one run of tiling: the manifest rows of
tile_information.csv, the saved tile image paths, whether the manifest
CSV was written, the error records appended to the global errors list,
and the returned count (None on the magnification failure path). -/
structure TilingResult where
  manifest : List TileRecord
  savedTiles : List String
  manifestWritten : Bool
  errors : List ErrorRecord
  count : Option Nat
deriving DecidableEq

/-- The per-candidate decision body of the tiling loop: the bound check
followed by the mask query; some row = the tile is accepted, saved and
appended to df_list. -/
def tileAccept (ts : TissueSlide) (result_path : String) (tissue : Nat → Nat → Bool)
    (size x y : Nat) : Option TileRecord :=
  if x + size ≤ ts.dimensions.1 ∧ y + size ≤ ts.dimensions.2 then
    if tissue x y then some (mkTileRecord ts (result_path ++ "/tiles") size x y) else none
  else none

/-- tiling from SlidePreprocessing.py.  The tissue oracle abstracts
mask.get_region_mask + mask.is_tissue at the run's fixed window size and
threshold; read_region and the resize/save of accepted tiles are
external.  The inner bound test (tileAccept) is Python's
x <= w - size and y <= h - size over ints, written additively to be
truncation-safe (it is only reached when the range is non-empty, i.e.
when size <= w). -/
def tiling (ts : TissueSlide) (result_path : String) (tissue : Nat → Nat → Bool)
    (overlap desired_size mag : Nat) : Except String TilingResult :=
  match best_size ts desired_size mag with
  | none =>
    Except.ok ⟨[], [], false,
      [⟨ts.id, ts.path, "The desired magnification is greater than the slide magnification.",
        "Tiling"⟩], none⟩
  | some size =>
    match pyRange (ts.dimensions.1 + 1 - size) (strideOf size desired_size overlap) with
    | Except.error e => Except.error e
    | Except.ok xs =>
      match pyRange (ts.dimensions.2 + 1 - size) (strideOf size desired_size overlap) with
      | Except.error e => Except.error e
      | Except.ok ys =>
        let rows := xs.flatMap (fun x => ys.filterMap (fun y =>
          tileAccept ts result_path tissue size x y))
        Except.ok ⟨rows, rows.map (fun r => r.path_to_slide), true, [], some rows.length⟩

/-- Observable outcome of normalize_tiles: the rows of
normalized_tile_information.csv, the error records appended to the
global errors list, and whether the manifest CSV was written. -/
structure StageResult where
  manifest : List TileRecord
  errors : List ErrorRecord
  manifestWritten : Bool
deriving DecidableEq

/-- The output filename rebuilt from a manifest row's own fields, as in
normalize_tiles and blurry_filter. -/
def rowFileName (r : TileRecord) : String :=
  r.patient_id ++ "_tile_w" ++ toString r.x ++ "_h" ++ toString r.y ++ "_mag" ++
    toString r.magnification ++ "_size" ++ toString r.size ++ "_scale" ++
    toString r.scale ++ ".png"

/-- The per-row loop of normalize_tiles: normOk abstracts
Image.open + normalizeStaining for one row (ok = the try body succeeded,
error = the caught exception's message).  On success the row is appended
to df_list with the normalized_tiles path; on failure an error record
with stage "Normalization" is appended to the global errors list. -/
def normalizeLoop (path : String) (normOk : TileRecord → Except String Unit) :
    List TileRecord → List TileRecord × List ErrorRecord
  | [] => ([], [])
  | r :: rest =>
    let p := normalizeLoop path normOk rest
    match normOk r with
    | Except.ok _ => ({ r with path_to_slide := path ++ "/" ++ rowFileName r } :: p.1, p.2)
    | Except.error e => (p.1, ⟨r.patient_id, r.path_to_slide, e, "Normalization"⟩ :: p.2)

/-- normalize_tiles from SlidePreprocessing.py: iterate the input
manifest rows, then write normalized_tile_information.csv
unconditionally. -/
def normalize_tiles (tiles : List TileRecord) (result_path : String)
    (normOk : TileRecord → Except String Unit) : StageResult :=
  let path := result_path ++ "/normalized_tiles"
  let p := normalizeLoop path normOk tiles
  ⟨p.1, p.2, true⟩

/-- An RGB image as rows of (r, g, b) pixels with exact rational
channel values (idealising the float arrays of the Python code). -/
abbrev RGBImage := List (List (ℚ × ℚ × ℚ))

/-- A single-channel image. -/
abbrev GrayImage := List (List ℚ)

/-- skimage.color.rgb2gray: the luma combination
0.2125 R + 0.7154 G + 0.0721 B per pixel. -/
def rgb2gray (img : RGBImage) : GrayImage :=
  img.map (fun row => row.map (fun p =>
    (2125 / 10000 : ℚ) * p.1 + (7154 / 10000 : ℚ) * p.2.1 + (721 / 10000 : ℚ) * p.2.2))

/-- OpenCV BORDER_REFLECT_101 index folding (the default border of
cv2.Laplacian): index -1 maps to 1 and index n maps to n - 2. -/
def reflect101 (n : Nat) (i : Int) : Nat :=
  if i < 0 then (-i).toNat
  else if (n : Int) ≤ i then (2 * ((n : Int) - 1) - i).toNat
  else i.toNat

/-- Pixel access with reflect-101 border handling (out-of-grid defaults
to 0, reachable only for degenerate 0- or 1-pixel extents). -/
def gridGet (g : GrayImage) (i j : Int) : ℚ :=
  (g.getD (reflect101 g.length i) []).getD (reflect101 (g.headD []).length j) 0

/-- cv2.Laplacian with ksize=3 on a CV_64F image: convolution with the
kernel rows [2,0,2],[0,-8,0],[2,0,2] (the sum of the Sobel second
derivatives in x and y at aperture 3), reflect-101 borders. -/
def laplacian3 (g : GrayImage) : GrayImage :=
  (List.range g.length).map (fun i =>
    (List.range (g.headD []).length).map (fun j =>
      2 * gridGet g ((i : Int) - 1) ((j : Int) - 1) +
      2 * gridGet g ((i : Int) - 1) ((j : Int) + 1) +
      2 * gridGet g ((i : Int) + 1) ((j : Int) - 1) +
      2 * gridGet g ((i : Int) + 1) ((j : Int) + 1) -
      8 * gridGet g (i : Int) (j : Int)))

/-- numpy ndarray.var(): the mean of squared deviations from the mean
(ddof = 0); 0 on an empty array (where numpy would emit nan). -/
def npVariance (xs : List ℚ) : ℚ :=
  if xs.length = 0 then 0
  else
    let m := xs.sum / (xs.length : ℚ)
    (xs.map (fun x => (x - m) ^ 2)).sum / (xs.length : ℚ)

/-- The full sharpness statistic of TileQualityFilters.LaplaceFilter:
variance of the Laplacian response of the grayscale conversion. -/
def lapVar (img : RGBImage) : ℚ :=
  npVariance (laplacian3 (rgb2gray img)).flatten

/-- LaplaceFilter from TileQualityFilters.py (True = in focus): returns
True iff the Laplacian-response variance is >= var_threshold (default
0.015 = 3/200). -/
def LaplaceFilter (img : RGBImage) (var_threshold : ℚ) : Bool :=
  let grayscale := rgb2gray img
  let laplace_img := laplacian3 grayscale
  if npVariance laplace_img.flatten ≥ var_threshold then true else false

/-- Observable outcome of blurry_filter: the rows of
infocus_tile_information.csv, the in-focus and out-of-focus saved image
paths, the error records appended to the global errors list, whether the
manifest CSV was written, and the returned count. -/
structure BlurResult where
  manifest : List TileRecord
  infocusSaved : List String
  outfocusSaved : List String
  errors : List ErrorRecord
  manifestWritten : Bool
  count : Nat
deriving DecidableEq

/-- The per-row loop of blurry_filter: load abstracts
Image.open + np.array for one row.  In-focus rows are saved under
infocus_tiles and appended to the manifest; out-of-focus rows are saved
under outfocus_tiles only; a load failure appends an error record with
stage "Blur filter." (sic, with the trailing period of the source). -/
def blurLoop (path blurry_path : String) (load : TileRecord → Except String RGBImage)
    (threshold : ℚ) :
    List TileRecord → List TileRecord × List String × List String × List ErrorRecord
  | [] => ([], [], [], [])
  | r :: rest =>
    let p := blurLoop path blurry_path load threshold rest
    match load r with
    | Except.error e =>
      (p.1, p.2.1, p.2.2.1, ⟨r.patient_id, r.path_to_slide, e, "Blur filter."⟩ :: p.2.2.2)
    | Except.ok img =>
      if LaplaceFilter img threshold then
        ({ r with path_to_slide := path ++ "/" ++ rowFileName r } :: p.1,
         (path ++ "/" ++ rowFileName r) :: p.2.1, p.2.2.1, p.2.2.2)
      else
        (p.1, p.2.1, (blurry_path ++ "/" ++ rowFileName r) :: p.2.2.1, p.2.2.2)

/-- blurry_filter from SlidePreprocessing.py: iterate the input manifest
rows, write infocus_tile_information.csv unconditionally, return
len(df). -/
def blurry_filter (tiles : List TileRecord) (result_path : String)
    (load : TileRecord → Except String RGBImage) (threshold : ℚ) : BlurResult :=
  let path := result_path ++ "/infocus_tiles"
  let blurry_path := result_path ++ "/outfocus_tiles"
  let p := blurLoop path blurry_path load threshold tiles
  ⟨p.1, p.2.1, p.2.2.1, p.2.2.2, true, p.1.length⟩

/-- The three stage manifest CSV files of one slide's output directory:
none = the file does not exist, some rows = it exists with those rows. -/
structure FileState where
  tileCSV : Option (List TileRecord)
  normCSV : Option (List TileRecord)
  infocusCSV : Option (List TileRecord)
deriving DecidableEq

/-- The pipeline configuration fields of the argparse namespace that
preprocessing consumes (the tissue threshold is folded into the tissue
oracle, tile_graph/encoding are external). -/
structure Args where
  desired_size : Nat
  desired_magnification : Nat
  overlap : Nat
  blur_threshold : ℚ
deriving DecidableEq

/-- Observable outcome of one preprocessing call: the returned summary
and error lists, the error records the stages appended to the
module-global errors list (NOT returned to the caller), the resulting
file state, and which stages actually recomputed. -/
structure PreprocessResult where
  summary : List OutcomeRecord
  error : List ErrorRecord
  globalErrors : List ErrorRecord
  fs : FileState
  ranTiling : Bool
  ranNorm : Bool
  ranBlur : Bool
deriving DecidableEq

/-- The tiling step of preprocessing: if tile_information.csv exists,
read its row count and skip; otherwise run tiling (whose exceptions
propagate) and record its manifest as the now-existing CSV. -/
def runTilingStage (ts : TissueSlide) (patient_path : String) (tissue : Nat → Nat → Bool)
    (args : Args) (fs : FileState) :
    Except String (Option Nat × FileState × List ErrorRecord × Bool) :=
  match fs.tileCSV with
  | some m => Except.ok (some m.length, fs, [], false)
  | none =>
    match tiling ts patient_path tissue args.overlap args.desired_size
        args.desired_magnification with
    | Except.error e => Except.error e
    | Except.ok res =>
      Except.ok (res.count, { fs with tileCSV := some res.manifest }, res.errors, true)

/-- The normalization step of preprocessing: skip if
normalized_tile_information.csv exists, else run normalize_tiles on the
rows of tile_information.csv. -/
def runNormStage (patient_path : String) (normOk : TileRecord → Except String Unit)
    (fs : FileState) : FileState × List ErrorRecord × Bool :=
  match fs.normCSV with
  | some _ => (fs, [], false)
  | none =>
    let nres := normalize_tiles (fs.tileCSV.getD []) patient_path normOk
    ({ fs with normCSV := some nres.manifest }, nres.errors, true)

/-- The blur step of preprocessing: skip (reading only the row count) if
infocus_tile_information.csv exists, else run blurry_filter on the rows
of normalized_tile_information.csv. -/
def runBlurStage (patient_path : String) (load : TileRecord → Except String RGBImage)
    (threshold : ℚ) (fs : FileState) :
    Option Nat × FileState × List ErrorRecord × Bool :=
  match fs.infocusCSV with
  | some b => (some b.length, fs, [], false)
  | none =>
    let bres := blurry_filter (fs.normCSV.getD []) patient_path load threshold
    (some bres.count, { fs with infocusCSV := some bres.manifest }, bres.errors, true)

/-- preprocessing from SlidePreprocessing.py, per slide.  slideOpt models
TissueSlide(path) (none when OpenSlide fails to open the slide).  It has
no try/except of its own: a stage exception (Except.error) propagates to
its caller.  The returned error list receives only the Slide Opening and
magnification-precheck Tiling records; stage-internal records go to the
module-global list (globalErrors).  Visualization and encoding are
external and not modelled. -/
def preprocessing (path patient_path patient_id : String) (slideOpt : Option TissueSlide)
    (tissue : Nat → Nat → Bool) (normOk : TileRecord → Except String Unit)
    (load : TileRecord → Except String RGBImage) (args : Args) (fs : FileState) :
    Except String PreprocessResult :=
  match slideOpt with
  | none =>
    Except.ok ⟨[⟨patient_id, path, none, none⟩],
      [⟨patient_id, path, "OpenSlide had an error with opening the provided slide.",
        "Slide Opening"⟩], [], fs, false, false, false⟩
  | some ts =>
    if args.desired_magnification ≤ ts.magnification then
      match runTilingStage ts patient_path tissue args fs with
      | Except.error e => Except.error e
      | Except.ok (total_tiles, fs1, g1, ran1) =>
        let q := runNormStage patient_path normOk fs1
        let b := runBlurStage patient_path load args.blur_threshold q.1
        Except.ok ⟨[⟨patient_id, path, total_tiles, b.1⟩], [],
          g1 ++ q.2.1 ++ b.2.2.1, b.2.1, ran1, q.2.2, b.2.2.2⟩
    else
      Except.ok ⟨[⟨patient_id, path, none, none⟩],
        [⟨patient_id, path, "Desired magnification is greater than slide magnification",
          "Tiling"⟩], [], fs, false, false, false⟩

/-- The rows expression computed by a tiling run that reaches its loop
(extraction size and stride already resolved). -/
def tilingRows (ts : TissueSlide) (result_path : String) (tissue : Nat → Nat → Bool)
    (size stride : Nat) : List TileRecord :=
  ((List.range ((ts.dimensions.1 + 1 - size + stride - 1) / stride)).map (fun k => k * stride)).flatMap
    (fun x =>
      ((List.range ((ts.dimensions.2 + 1 - size + stride - 1) / stride)).map (fun k => k * stride)).filterMap
        (fun y => tileAccept ts result_path tissue size x y))

/-- Fixture: a tissue mask oracle accepting every candidate region. -/
def allTissue : Nat → Nat → Bool := fun _ _ => true

/-- Fixture: a normalization oracle for which every tile succeeds. -/
def normOkAll : TileRecord → Except String Unit := fun _ => Except.ok ()

/-- Fixture: a normalization oracle for which every tile load fails. -/
def normFailAll : TileRecord → Except String Unit := fun _ => Except.error "corrupt"

/-- Fixture: an image-load oracle for which every tile load fails. -/
def loadFailAll : TileRecord → Except String RGBImage :=
  fun _ => Except.error "cannot identify image file"

/-- Fixture: a fresh output directory with no stage manifest present. -/
def fsEmpty : FileState := ⟨none, none, none⟩

/-- Fixture: a 2x2 slide of native magnification 1 and scale 1. -/
def tsTiny : TissueSlide := ⟨"s", "p", 1, (2, 2), 1⟩

/-- Fixture: a 1024x1024 slide of native magnification 40 (the spec's
end-to-end scenario slide). -/
def tsQuad : TissueSlide := ⟨"s", "p", 40, (1024, 1024), 1⟩

/-- Fixture: a 2x2 slide of native magnification 2 (used to separate the
native magnification from a target magnification of 1). -/
def tsNat2 : TissueSlide := ⟨"s", "p", 2, (2, 2), 1⟩

/-- Fixture: configuration with overlap 300 greater than the output size
256 (stride underflows to zero). -/
def argsOv300 : Args := ⟨256, 20, 300, 0⟩

/-- Fixture: output size 2 at target magnification 1, no overlap. -/
def argsTiny : Args := ⟨2, 1, 0, 0⟩

/-- Fixture: the single manifest row produced by tiling tsTiny with
argsTiny. -/
def recTiny : TileRecord := ⟨"s", 0, 0, 1, 2, "o/tiles/s_tile_w0_h0_mag1_size2_scale1.png", 1⟩

/-- Fixture: the tiling result for tsTiny with argsTiny under allTissue. -/
def resTiny : TilingResult :=
  ⟨[recTiny], ["o/tiles/s_tile_w0_h0_mag1_size2_scale1.png"], true, [], some 1⟩

/-- Fixture: the single manifest row produced by tiling tsNat2 at target
magnification 1 and output size 1 (extraction size 2). -/
def recNat2 : TileRecord := ⟨"s", 0, 0, 2, 2, "o/tiles/s_tile_w0_h0_mag2_size2_scale1.png", 1⟩

/-- Fixture: the tiling result for tsNat2 at target magnification 1 and
output size 1. -/
def resNat2 : TilingResult :=
  ⟨[recNat2], ["o/tiles/s_tile_w0_h0_mag2_size2_scale1.png"], true, [], some 1⟩

/-- Fixture: the result of a fresh preprocessing run over tsTiny in which
the only tile fails normalization. -/
def resFirstRun : PreprocessResult :=
  ⟨[⟨"s", "p", some 1, some 0⟩], [],
   [⟨"s", "o/tiles/s_tile_w0_h0_mag1_size2_scale1.png", "corrupt", "Normalization"⟩],
   ⟨some [recTiny], some [], some []⟩, true, true, true⟩

theorem pyRange_pos_eq (stop step : Nat) (h : step ≠ 0) :
    pyRange stop step =
      Except.ok ((List.range ((stop + step - 1) / step)).map (fun k => k * step)) := by
  simp [pyRange, h]

theorem pyRange_zero_eq (stop : Nat) :
    pyRange stop 0 = Except.error "range() arg 3 must not be zero" := rfl

theorem strideOf_pos {size ds ov : Nat} (hsize : 0 < size) (hov : ov = 0 ∨ ov ≤ ds) :
    0 < strideOf size ds ov := by
  by_cases h0 : ov = 0
  · simpa [strideOf, h0] using hsize
  · rcases hov with h | h
    · exact absurd h h0
    · have h1 : 1 ≤ ds / ov := (Nat.one_le_div_iff (Nat.pos_of_ne_zero h0)).2 h
      simpa [strideOf, h0] using h1

theorem best_size_of_le {ts : TissueSlide} (ds : Nat) {mag : Nat} (hle : mag ≤ ts.magnification) :
    best_size ts ds mag = some (ds * ts.magnification / mag) := by
  simp [best_size, Nat.not_lt.2 hle]

theorem best_size_pos {ts : TissueSlide} {ds mag : Nat} (hmag : 0 < mag)
    (hle : mag ≤ ts.magnification) (hds : 0 < ds) :
    0 < ds * ts.magnification / mag := by
  have h1 : mag ≤ ds * ts.magnification :=
    le_trans hle (Nat.le_mul_of_pos_left _ hds)
  exact (Nat.one_le_div_iff hmag).2 h1

theorem tiling_mag_fail {ts : TissueSlide} {rp : String} {tissue : Nat → Nat → Bool}
    {ov ds mag : Nat} (hbs : best_size ts ds mag = none) :
    tiling ts rp tissue ov ds mag =
      Except.ok ⟨[], [], false,
        [⟨ts.id, ts.path, "The desired magnification is greater than the slide magnification.",
          "Tiling"⟩], none⟩ := by
  simp only [tiling, hbs]

theorem tiling_raise {ts : TissueSlide} {rp : String} {tissue : Nat → Nat → Bool}
    {ov ds mag size : Nat} (hbs : best_size ts ds mag = some size)
    (hst : strideOf size ds ov = 0) :
    tiling ts rp tissue ov ds mag = Except.error "range() arg 3 must not be zero" := by
  simp only [tiling, hbs, hst, pyRange_zero_eq]

theorem tiling_reduce {ts : TissueSlide} {rp : String} {tissue : Nat → Nat → Bool}
    {ov ds mag size : Nat} (hbs : best_size ts ds mag = some size)
    (hst : strideOf size ds ov ≠ 0) :
    tiling ts rp tissue ov ds mag =
      Except.ok ⟨tilingRows ts rp tissue size (strideOf size ds ov),
        (tilingRows ts rp tissue size (strideOf size ds ov)).map (fun r => r.path_to_slide),
        true, [], some (tilingRows ts rp tissue size (strideOf size ds ov)).length⟩ := by
  simp only [tiling, hbs]
  rw [pyRange_pos_eq _ _ hst, pyRange_pos_eq _ _ hst]
  rfl

theorem tiling_ok_normal {ts : TissueSlide} {rp : String} {tissue : Nat → Nat → Bool}
    {ov ds mag : Nat} (hmag : 0 < mag) (hle : mag ≤ ts.magnification) (hds : 0 < ds)
    (hov : ov = 0 ∨ ov ≤ ds) :
    ∃ res, tiling ts rp tissue ov ds mag = Except.ok res ∧ res.errors = [] ∧
      res.count = some res.manifest.length ∧ res.manifestWritten = true := by
  have hbs := best_size_of_le ds hle
  have hst : strideOf (ds * ts.magnification / mag) ds ov ≠ 0 :=
    (strideOf_pos (best_size_pos hmag hle hds) hov).ne'
  exact ⟨_, tiling_reduce hbs hst, rfl, rfl, rfl⟩

theorem tiling_manifest_mem {ts : TissueSlide} {rp : String} {tissue : Nat → Nat → Bool}
    {ov ds mag : Nat} {res : TilingResult} {r : TileRecord}
    (h : tiling ts rp tissue ov ds mag = Except.ok res) (hr : r ∈ res.manifest) :
    ∃ size x y, best_size ts ds mag = some size ∧
      r = mkTileRecord ts (rp ++ "/tiles") size x y ∧
      x + size ≤ ts.dimensions.1 ∧ y + size ≤ ts.dimensions.2 ∧
      tissue x y = true ∧
      strideOf size ds ov ∣ x ∧ strideOf size ds ov ∣ y := by
  cases hbs : best_size ts ds mag with
  | none =>
    rw [tiling_mag_fail hbs] at h
    obtain rfl := (Except.ok.inj h).symm
    simp at hr
  | some size =>
    by_cases hst : strideOf size ds ov = 0
    · rw [tiling_raise hbs hst] at h
      exact Except.noConfusion h
    · rw [tiling_reduce hbs hst] at h
      obtain rfl := (Except.ok.inj h).symm
      simp only [tilingRows, List.mem_flatMap, List.mem_filterMap, List.mem_map,
        List.mem_range] at hr
      obtain ⟨x, ⟨k1, _, rfl⟩, y, ⟨k2, _, rfl⟩, heq⟩ := hr
      rw [tileAccept] at heq
      split_ifs at heq with h1 h2
      · exact ⟨size, k1 * strideOf size ds ov, k2 * strideOf size ds ov, rfl,
          (Option.some.inj heq).symm, h1.1, h1.2, h2,
          ⟨k1, mul_comm _ _⟩, ⟨k2, mul_comm _ _⟩⟩

theorem normalizeLoop_eq (path : String) (normOk : TileRecord → Except String Unit)
    (l : List TileRecord) :
    normalizeLoop path normOk l =
      (l.filterMap (fun r => match normOk r with
        | Except.ok _ => some { r with path_to_slide := path ++ "/" ++ rowFileName r }
        | Except.error _ => none),
       l.filterMap (fun r => match normOk r with
        | Except.ok _ => none
        | Except.error e => some ⟨r.patient_id, r.path_to_slide, e, "Normalization"⟩)) := by
  induction l with
  | nil => rfl
  | cons r rest ih =>
    simp only [normalizeLoop, ih, List.filterMap_cons]
    cases h : normOk r <;> simp [h]

theorem blurLoop_eq (path blurry_path : String) (load : TileRecord → Except String RGBImage)
    (t : ℚ) (l : List TileRecord) :
    blurLoop path blurry_path load t l =
      (l.filterMap (fun r => match load r with
        | Except.ok img =>
          if LaplaceFilter img t then
            some { r with path_to_slide := path ++ "/" ++ rowFileName r }
          else none
        | Except.error _ => none),
       l.filterMap (fun r => match load r with
        | Except.ok img =>
          if LaplaceFilter img t then some (path ++ "/" ++ rowFileName r) else none
        | Except.error _ => none),
       l.filterMap (fun r => match load r with
        | Except.ok img =>
          if LaplaceFilter img t then none else some (blurry_path ++ "/" ++ rowFileName r)
        | Except.error _ => none),
       l.filterMap (fun r => match load r with
        | Except.ok _ => none
        | Except.error e => some ⟨r.patient_id, r.path_to_slide, e, "Blur filter."⟩)) := by
  induction l with
  | nil => rfl
  | cons r rest ih =>
    simp only [blurLoop, ih, List.filterMap_cons]
    cases h : load r with
    | error e => simp [h]
    | ok img => by_cases hf : LaplaceFilter img t <;> simp [h, hf]

theorem normalize_tiles_errors_stage {tiles : List TileRecord} {rp : String}
    {normOk : TileRecord → Except String Unit} {e : ErrorRecord}
    (he : e ∈ (normalize_tiles tiles rp normOk).errors) : e.stage = "Normalization" := by
  simp only [normalize_tiles, normalizeLoop_eq, List.mem_filterMap] at he
  obtain ⟨r, _, heq⟩ := he
  cases h : normOk r <;> rw [h] at heq
  · obtain rfl := Option.some.inj heq
    rfl
  · exact Option.noConfusion heq

theorem blurry_filter_errors_stage {tiles : List TileRecord} {rp : String}
    {load : TileRecord → Except String RGBImage} {t : ℚ} {e : ErrorRecord}
    (he : e ∈ (blurry_filter tiles rp load t).errors) : e.stage = "Blur filter." := by
  simp only [blurry_filter, blurLoop_eq, List.mem_filterMap] at he
  obtain ⟨r, _, heq⟩ := he
  cases h : load r <;> rw [h] at heq
  · obtain rfl := Option.some.inj heq
    rfl
  · exact Option.noConfusion heq

theorem runTilingStage_skip (ts : TissueSlide) (pp : String) (tissue : Nat → Nat → Bool)
    (args : Args) {fs : FileState} {m : List TileRecord} (h : fs.tileCSV = some m) :
    runTilingStage ts pp tissue args fs = Except.ok (some m.length, fs, [], false) := by
  simp only [runTilingStage, h]

theorem runTilingStage_run {ts : TissueSlide} {pp : String} {tissue : Nat → Nat → Bool}
    {args : Args} {fs : FileState} {res : TilingResult} (h : fs.tileCSV = none)
    (ht : tiling ts pp tissue args.overlap args.desired_size args.desired_magnification =
      Except.ok res) :
    runTilingStage ts pp tissue args fs =
      Except.ok (res.count, { fs with tileCSV := some res.manifest }, res.errors, true) := by
  simp only [runTilingStage, h, ht]

theorem runNormStage_skip {pp : String} {normOk : TileRecord → Except String Unit}
    {fs : FileState} {nm : List TileRecord} (h : fs.normCSV = some nm) :
    runNormStage pp normOk fs = (fs, [], false) := by
  simp only [runNormStage, h]

theorem runNormStage_run {pp : String} {normOk : TileRecord → Except String Unit}
    {fs : FileState} (h : fs.normCSV = none) :
    runNormStage pp normOk fs =
      ({ fs with normCSV := some (normalize_tiles (fs.tileCSV.getD []) pp normOk).manifest },
       (normalize_tiles (fs.tileCSV.getD []) pp normOk).errors, true) := by
  simp only [runNormStage, h]

theorem runBlurStage_skip {pp : String} {load : TileRecord → Except String RGBImage}
    {t : ℚ} {fs : FileState} {bm : List TileRecord} (h : fs.infocusCSV = some bm) :
    runBlurStage pp load t fs = (some bm.length, fs, [], false) := by
  simp only [runBlurStage, h]

theorem runBlurStage_run {pp : String} {load : TileRecord → Except String RGBImage}
    {t : ℚ} {fs : FileState} (h : fs.infocusCSV = none) :
    runBlurStage pp load t fs =
      (some (blurry_filter (fs.normCSV.getD []) pp load t).count,
       { fs with infocusCSV := some (blurry_filter (fs.normCSV.getD []) pp load t).manifest },
       (blurry_filter (fs.normCSV.getD []) pp load t).errors, true) := by
  simp only [runBlurStage, h]

theorem runNormStage_fst_tileCSV (pp : String) (normOk : TileRecord → Except String Unit)
    (fs : FileState) : (runNormStage pp normOk fs).1.tileCSV = fs.tileCSV := by
  cases h : fs.normCSV <;> simp [runNormStage, h]

theorem runNormStage_fst_infocusCSV (pp : String) (normOk : TileRecord → Except String Unit)
    (fs : FileState) : (runNormStage pp normOk fs).1.infocusCSV = fs.infocusCSV := by
  cases h : fs.normCSV <;> simp [runNormStage, h]

theorem runNormStage_fst_normCSV_isSome (pp : String)
    (normOk : TileRecord → Except String Unit) (fs : FileState) :
    (runNormStage pp normOk fs).1.normCSV.isSome = true := by
  cases h : fs.normCSV <;> simp [runNormStage, h]

theorem runBlurStage_fst_tileCSV (pp : String) (load : TileRecord → Except String RGBImage)
    (t : ℚ) (fs : FileState) : (runBlurStage pp load t fs).2.1.tileCSV = fs.tileCSV := by
  cases h : fs.infocusCSV <;> simp [runBlurStage, h]

theorem runBlurStage_fst_normCSV (pp : String) (load : TileRecord → Except String RGBImage)
    (t : ℚ) (fs : FileState) : (runBlurStage pp load t fs).2.1.normCSV = fs.normCSV := by
  cases h : fs.infocusCSV <;> simp [runBlurStage, h]

theorem runBlurStage_fst_infocusCSV_isSome (pp : String)
    (load : TileRecord → Except String RGBImage) (t : ℚ) (fs : FileState) :
    (runBlurStage pp load t fs).2.1.infocusCSV.isSome = true := by
  cases h : fs.infocusCSV <;> simp [runBlurStage, h]

theorem runTilingStage_ok_fs {ts : TissueSlide} {pp : String} {tissue : Nat → Nat → Bool}
    {args : Args} {fs fs1 : FileState} {total : Option Nat} {g : List ErrorRecord} {b : Bool}
    (h : runTilingStage ts pp tissue args fs = Except.ok (total, fs1, g, b)) :
    fs1.tileCSV.isSome = true ∧ fs1.normCSV = fs.normCSV ∧ fs1.infocusCSV = fs.infocusCSV := by
  cases hc : fs.tileCSV with
  | some m =>
    rw [runTilingStage_skip ts pp tissue args hc] at h
    obtain rfl : fs1 = fs := (congrArg (fun p => p.2.1) (Except.ok.inj h)).symm
    exact ⟨by simp [hc], rfl, rfl⟩
  | none =>
    rw [runTilingStage] at h
    rw [hc] at h
    cases ht : tiling ts pp tissue args.overlap args.desired_size args.desired_magnification with
    | error e => rw [ht] at h; exact Except.noConfusion h
    | ok res =>
      rw [ht] at h
      obtain rfl : fs1 = { fs with tileCSV := some res.manifest } :=
        (congrArg (fun p => p.2.1) (Except.ok.inj h)).symm
      exact ⟨rfl, rfl, rfl⟩

theorem preprocessing_run {path pp pid : String} {ts : TissueSlide}
    {tissue : Nat → Nat → Bool} {normOk : TileRecord → Except String Unit}
    {load : TileRecord → Except String RGBImage} {args : Args} {fs fs1 : FileState}
    {total : Option Nat} {g1 : List ErrorRecord} {ran1 : Bool}
    (hmag : args.desired_magnification ≤ ts.magnification)
    (hrt : runTilingStage ts pp tissue args fs = Except.ok (total, fs1, g1, ran1)) :
    preprocessing path pp pid (some ts) tissue normOk load args fs =
      Except.ok ⟨[⟨pid, path, total,
          (runBlurStage pp load args.blur_threshold (runNormStage pp normOk fs1).1).1⟩], [],
        g1 ++ (runNormStage pp normOk fs1).2.1 ++
          (runBlurStage pp load args.blur_threshold (runNormStage pp normOk fs1).1).2.2.1,
        (runBlurStage pp load args.blur_threshold (runNormStage pp normOk fs1).1).2.1,
        ran1, (runNormStage pp normOk fs1).2.2,
        (runBlurStage pp load args.blur_threshold (runNormStage pp normOk fs1).1).2.2.2⟩ := by
  simp only [preprocessing, if_pos hmag, hrt]

theorem preprocessing_raise {path pp pid : String} {ts : TissueSlide}
    {tissue : Nat → Nat → Bool} {normOk : TileRecord → Except String Unit}
    {load : TileRecord → Except String RGBImage} {args : Args} {fs : FileState} {e : String}
    (hmag : args.desired_magnification ≤ ts.magnification)
    (hrt : runTilingStage ts pp tissue args fs = Except.error e) :
    preprocessing path pp pid (some ts) tissue normOk load args fs = Except.error e := by
  simp only [preprocessing, if_pos hmag, hrt]

theorem preprocessing_magfail {path pp pid : String} {ts : TissueSlide}
    {tissue : Nat → Nat → Bool} {normOk : TileRecord → Except String Unit}
    {load : TileRecord → Except String RGBImage} {args : Args} {fs : FileState}
    (h : ¬ args.desired_magnification ≤ ts.magnification) :
    preprocessing path pp pid (some ts) tissue normOk load args fs =
      Except.ok ⟨[⟨pid, path, none, none⟩],
        [⟨pid, path, "Desired magnification is greater than slide magnification", "Tiling"⟩],
        [], fs, false, false, false⟩ := by
  simp only [preprocessing, if_neg h]

theorem runNormStage_errors_stage {pp : String} {normOk : TileRecord → Except String Unit}
    {fs : FileState} {e : ErrorRecord} (he : e ∈ (runNormStage pp normOk fs).2.1) :
    e.stage = "Normalization" := by
  cases h : fs.normCSV with
  | none =>
    rw [runNormStage_run h] at he
    exact normalize_tiles_errors_stage he
  | some nm =>
    rw [runNormStage_skip h] at he
    simp at he

theorem runBlurStage_errors_stage {pp : String} {load : TileRecord → Except String RGBImage}
    {t : ℚ} {fs : FileState} {e : ErrorRecord} (he : e ∈ (runBlurStage pp load t fs).2.2.1) :
    e.stage = "Blur filter." := by
  cases h : fs.infocusCSV with
  | none =>
    rw [runBlurStage_run h] at he
    exact blurry_filter_errors_stage he
  | some bm =>
    rw [runBlurStage_skip h] at he
    simp at he

/-- C1: for every slide and configuration (with a positive target
magnification, since Python would raise ZeroDivisionError at mag = 0),
the extraction size computed by best_size equals
output_size * native_magnification / target_magnification, and when the
target magnification exceeds the native magnification, tiling produces
no tiles, saves nothing, returns None, and records exactly one error
record with stage "Tiling" instead of crashing. -/
theorem best_size_formula_and_mag_error :
    ∀ (ts : TissueSlide) (rp : String) (tissue : Nat → Nat → Bool) (ov ds mag : Nat),
      0 < mag →
      (mag ≤ ts.magnification →
        best_size ts ds mag = some (ds * ts.magnification / mag)) ∧
      (ts.magnification < mag →
        tiling ts rp tissue ov ds mag =
          Except.ok ⟨[], [], false,
            [⟨ts.id, ts.path,
              "The desired magnification is greater than the slide magnification.",
              "Tiling"⟩], none⟩) := by
  intro ts rp tissue ov ds mag _
  refine ⟨fun hle => best_size_of_le ds hle, fun hlt => tiling_mag_fail ?_⟩
  simp [best_size, hlt]

/-- Witness for C1: on the spec's scenario slide (native 40, target 20,
output 256) the extraction size is 256 * 40 / 20 = 512, and requesting
target magnification 2 of a native-magnification-1 slide yields the
"Tiling" error record. -/
theorem best_size_formula_and_mag_error_witness :
    best_size tsQuad 256 20 = some (256 * 40 / 20) ∧
    tiling tsTiny "o" allTissue 0 2 2 =
      Except.ok ⟨[], [], false,
        [⟨"s", "p", "The desired magnification is greater than the slide magnification.",
          "Tiling"⟩], none⟩ :=
  ⟨(best_size_formula_and_mag_error tsQuad "o" allTissue 0 256 20 (by decide)).1 (by decide),
   (best_size_formula_and_mag_error tsTiny "o" allTissue 0 2 2 (by decide)).2 (by decide)⟩

/-- C5: the iteration stride equals the extraction size when overlap is
zero and desired_size // overlap (integer division of the configured
output size, not the extraction size) when overlap is nonzero; every
accepted tile origin is a multiple of that stride. -/
theorem stride_semantics :
    ∀ (size ds ov : Nat),
      (ov = 0 → strideOf size ds ov = size) ∧
      (ov ≠ 0 → strideOf size ds ov = ds / ov) ∧
      ∀ (ts : TissueSlide) (rp : String) (tissue : Nat → Nat → Bool) (mag : Nat)
        (res : TilingResult) (r : TileRecord),
        tiling ts rp tissue ov ds mag = Except.ok res → r ∈ res.manifest →
        strideOf (ds * ts.magnification / mag) ds ov ∣ r.x ∧
        strideOf (ds * ts.magnification / mag) ds ov ∣ r.y := by
  intro size ds ov
  refine ⟨fun h => by simp [strideOf, h], fun h => by simp [strideOf, h], ?_⟩
  intro ts rp tissue mag res r h hr
  obtain ⟨size', x, y, hbs, rfl, -, -, -, hdx, hdy⟩ := tiling_manifest_mem h hr
  have hsz : size' = ds * ts.magnification / mag := by
    rw [best_size] at hbs
    split_ifs at hbs
    exact (Option.some.inj hbs).symm
  subst hsz
  simp only [mkTileRecord]
  exact ⟨hdx, hdy⟩

/-- Witness for C5: with output size 256 and extraction size 512, the
stride is 512 at overlap 0 and 256 / 2 = 128 at overlap 2. -/
theorem stride_semantics_witness :
    strideOf 512 256 0 = 512 ∧ strideOf 512 256 2 = 256 / 2 :=
  ⟨(stride_semantics 512 256 0).1 rfl, (stride_semantics 512 256 2).2.1 (by decide)⟩

/-- C6: every record accepted into a tiling manifest has an origin with
x + size <= width and y + size <= height (equivalently, since origins
are naturals, 0 <= x <= width - size and 0 <= y <= height - size for the
extraction size recorded in the row), so the extraction window stays
inside the slide. -/
theorem tile_origin_in_bounds :
    ∀ (ts : TissueSlide) (rp : String) (tissue : Nat → Nat → Bool) (ov ds mag : Nat)
      (res : TilingResult) (r : TileRecord),
      tiling ts rp tissue ov ds mag = Except.ok res → r ∈ res.manifest →
      r.x + r.size ≤ ts.dimensions.1 ∧ r.y + r.size ≤ ts.dimensions.2 ∧
      r.x ≤ ts.dimensions.1 - r.size ∧ r.y ≤ ts.dimensions.2 - r.size := by
  intro ts rp tissue ov ds mag res r h hr
  obtain ⟨size, x, y, -, rfl, hx, hy, -, -, -⟩ := tiling_manifest_mem h hr
  simp only [mkTileRecord]
  exact ⟨hx, hy, by omega, by omega⟩

/-- Witness for C6: the single tile of the 2x2 fixture slide has origin
(0, 0) and extraction size 2, inside the slide. -/
theorem tile_origin_in_bounds_witness :
    recTiny.x + recTiny.size ≤ tsTiny.dimensions.1 ∧
    recTiny.y + recTiny.size ≤ tsTiny.dimensions.2 ∧
    recTiny.x ≤ tsTiny.dimensions.1 - recTiny.size ∧
    recTiny.y ≤ tsTiny.dimensions.2 - recTiny.size :=
  tile_origin_in_bounds tsTiny "o" allTissue 0 2 1 resTiny recTiny rfl (by decide)

/-- C8 (amended): the magnification field written into each manifest row
and into each tile filename by tiling is the slide's NATIVE
magnification (ts.magnification), not the target magnification requested
for extraction. -/
theorem tile_magnification_native :
    ∀ (ts : TissueSlide) (rp : String) (tissue : Nat → Nat → Bool) (ov ds mag : Nat)
      (res : TilingResult) (r : TileRecord),
      tiling ts rp tissue ov ds mag = Except.ok res → r ∈ res.manifest →
      r.magnification = ts.magnification ∧
      r.path_to_slide = rp ++ "/tiles" ++ "/" ++ tileFileName ts r.size r.x r.y := by
  intro ts rp tissue ov ds mag res r h hr
  obtain ⟨size, x, y, -, rfl, -, -, -, -, -⟩ := tiling_manifest_mem h hr
  exact ⟨rfl, rfl⟩

/-- Counterexample for C8 as stated: tiling the native-magnification-2
slide at target magnification 1 produces a row whose magnification field
is 2 (the native magnification) and whose filename embeds mag2, not the
target magnification 1 at which extraction was requested. -/
theorem tile_magnification_counterexample :
    tiling tsNat2 "o" allTissue 0 1 1 = Except.ok resNat2 ∧
    resNat2.manifest.map (fun r => r.magnification) = [2] ∧
    resNat2.savedTiles = ["o/tiles/s_tile_w0_h0_mag2_size2_scale1.png"] ∧
    (2 : Nat) ≠ 1 :=
  ⟨rfl, rfl, rfl, by decide⟩

/-- Witness for C8 (amended): the row produced for the
native-magnification-2 slide carries magnification 2 and the mag2
filename. -/
theorem tile_magnification_native_witness :
    recNat2.magnification = tsNat2.magnification ∧
    recNat2.path_to_slide = "o" ++ "/tiles" ++ "/" ++ tileFileName tsNat2 recNat2.size
      recNat2.x recNat2.y :=
  tile_magnification_native tsNat2 "o" allTissue 0 1 1 resNat2 recNat2 rfl (by decide)

/-- C9: the tiling iteration is total only under the stride
precondition: with the magnification precondition holding (so the loop
is reached), any nonzero overlap greater than the output size makes the
computed stride output_size // overlap equal to 0 and tiling raises the
zero-step range error instead of producing a manifest, while overlap = 0
or 1 <= overlap <= output_size yields a normal completion. -/
theorem overlap_stride_totality :
    ∀ (ts : TissueSlide) (rp : String) (tissue : Nat → Nat → Bool) (ov ds mag : Nat),
      0 < mag → mag ≤ ts.magnification → 0 < ds →
      (ov ≠ 0 → ds < ov →
        strideOf (ds * ts.magnification / mag) ds ov = 0 ∧
        tiling ts rp tissue ov ds mag = Except.error "range() arg 3 must not be zero") ∧
      (ov = 0 ∨ (1 ≤ ov ∧ ov ≤ ds) →
        ∃ res, tiling ts rp tissue ov ds mag = Except.ok res ∧ res.count.isSome = true) := by
  intro ts rp tissue ov ds mag hmag hle hds
  constructor
  · intro hov hlt
    have hst : strideOf (ds * ts.magnification / mag) ds ov = 0 := by
      simp [strideOf, hov, Nat.div_eq_of_lt hlt]
    exact ⟨hst, tiling_raise (best_size_of_le ds hle) hst⟩
  · intro hov
    obtain ⟨res, h1, -, h3, -⟩ :=
      tiling_ok_normal hmag hle hds (hov.imp id (fun h => h.2))
    exact ⟨res, h1, by rw [h3]; rfl⟩

/-- Witness for C9: on the fixture slide, overlap 3 with output size 2
gives stride 2 / 3 = 0 and the range error, while overlap 0 completes
normally. -/
theorem overlap_stride_totality_witness :
    (strideOf (2 * 1 / 1) 2 3 = 0 ∧
     tiling tsTiny "o" allTissue 3 2 1 = Except.error "range() arg 3 must not be zero") ∧
    (∃ res, tiling tsTiny "o" allTissue 0 2 1 = Except.ok res ∧ res.count.isSome = true) :=
  ⟨(overlap_stride_totality tsTiny "o" allTissue 3 2 1 (by decide) (by decide) (by decide)).1
      (by decide) (by decide),
   (overlap_stride_totality tsTiny "o" allTissue 0 2 1 (by decide) (by decide) (by decide)).2
      (Or.inl rfl)⟩

/-- C4: normalize_tiles isolates per-tile failures: the output manifest
consists of exactly the successfully processed rows (in input order,
with paths moved to normalized_tiles), the global error list receives
exactly one record with stage "Normalization" per failing row, every
failing row yields such an error record, every succeeding row appears in
the output manifest, and every output row originates from a succeeding
input row (so a failing row contributes nothing to the output
manifest). -/
theorem normalization_isolation :
    ∀ (tiles : List TileRecord) (rp : String) (normOk : TileRecord → Except String Unit),
      (normalize_tiles tiles rp normOk).manifest =
        tiles.filterMap (fun r => match normOk r with
          | Except.ok _ =>
            some { r with path_to_slide := rp ++ "/normalized_tiles" ++ "/" ++ rowFileName r }
          | Except.error _ => none) ∧
      (normalize_tiles tiles rp normOk).errors =
        tiles.filterMap (fun r => match normOk r with
          | Except.ok _ => none
          | Except.error e => some ⟨r.patient_id, r.path_to_slide, e, "Normalization"⟩) ∧
      (∀ r ∈ tiles, ∀ e, normOk r = Except.error e →
        (⟨r.patient_id, r.path_to_slide, e, "Normalization"⟩ : ErrorRecord) ∈
          (normalize_tiles tiles rp normOk).errors) ∧
      (∀ r ∈ tiles, normOk r = Except.ok () →
        ({ r with path_to_slide := rp ++ "/normalized_tiles" ++ "/" ++ rowFileName r }) ∈
          (normalize_tiles tiles rp normOk).manifest) ∧
      (∀ m ∈ (normalize_tiles tiles rp normOk).manifest, ∃ r ∈ tiles,
        normOk r = Except.ok () ∧
        m = { r with path_to_slide := rp ++ "/normalized_tiles" ++ "/" ++ rowFileName r }) := by
  intro tiles rp normOk
  have h := normalizeLoop_eq (rp ++ "/normalized_tiles") normOk tiles
  have hman : (normalize_tiles tiles rp normOk).manifest =
      tiles.filterMap (fun r => match normOk r with
        | Except.ok _ =>
          some { r with path_to_slide := rp ++ "/normalized_tiles" ++ "/" ++ rowFileName r }
        | Except.error _ => none) := by
    simp only [normalize_tiles, h]
  have herr : (normalize_tiles tiles rp normOk).errors =
      tiles.filterMap (fun r => match normOk r with
        | Except.ok _ => none
        | Except.error e => some ⟨r.patient_id, r.path_to_slide, e, "Normalization"⟩) := by
    simp only [normalize_tiles, h]
  refine ⟨hman, herr, ?_, ?_, ?_⟩
  · intro r hr e he
    rw [herr]
    exact List.mem_filterMap.2 ⟨r, hr, by rw [he]⟩
  · intro r hr hok
    rw [hman]
    exact List.mem_filterMap.2 ⟨r, hr, by rw [hok]⟩
  · intro m hm
    rw [hman] at hm
    obtain ⟨r, hr, heq⟩ := List.mem_filterMap.1 hm
    cases hok : normOk r with
    | error e => rw [hok] at heq; exact Option.noConfusion heq
    | ok u =>
      rw [hok] at heq
      exact ⟨r, hr, by rw [hok], (Option.some.inj heq).symm⟩

/-- C7: LaplaceFilter classifies a tile as in-focus exactly when the
variance of the Laplacian response of its grayscale conversion is at
least the threshold, the boundary is inclusive (a tile whose variance
exactly equals the threshold is in-focus), and blurry_filter records
exactly the in-focus tiles in the output manifest while saving
out-of-focus tiles to the separate outfocus_tiles directory and
excluding them from the manifest. -/
theorem laplace_inclusive_and_routing :
    (∀ (img : RGBImage) (t : ℚ),
      (LaplaceFilter img t = true ↔
        t ≤ npVariance (laplacian3 (rgb2gray img)).flatten) ∧
      LaplaceFilter img (npVariance (laplacian3 (rgb2gray img)).flatten) = true) ∧
    (∀ (tiles : List TileRecord) (rp : String)
        (load : TileRecord → Except String RGBImage) (t : ℚ),
      (blurry_filter tiles rp load t).manifest =
        tiles.filterMap (fun r => match load r with
          | Except.ok img =>
            if LaplaceFilter img t then
              some { r with path_to_slide := rp ++ "/infocus_tiles" ++ "/" ++ rowFileName r }
            else none
          | Except.error _ => none) ∧
      (blurry_filter tiles rp load t).outfocusSaved =
        tiles.filterMap (fun r => match load r with
          | Except.ok img =>
            if LaplaceFilter img t then none
            else some (rp ++ "/outfocus_tiles" ++ "/" ++ rowFileName r)
          | Except.error _ => none) ∧
      (blurry_filter tiles rp load t).count =
        (blurry_filter tiles rp load t).manifest.length) := by
  constructor
  · intro img t
    constructor
    · by_cases hv : npVariance (laplacian3 (rgb2gray img)).flatten ≥ t <;>
        simp [LaplaceFilter, hv]
    · simp [LaplaceFilter, le_refl]
  · intro tiles rp load t
    have h := blurLoop_eq (rp ++ "/infocus_tiles") (rp ++ "/outfocus_tiles") load t tiles
    exact ⟨by simp only [blurry_filter, h], by simp only [blurry_filter, h], rfl⟩

/-- C2: when a stage manifest CSV already exists in the output
directory, preprocessing does not recompute that stage and reports the
persisted manifest's row count: with tile_information.csv present, the
tiling stage is skipped and the outcome's tile count is its row count;
likewise the normalization stage is skipped when its CSV is present, and
the blur stage is skipped with the in-focus count read from its CSV. -/
theorem checkpoint_skip_row_count :
    ∀ (path pp pid : String) (ts : TissueSlide) (tissue : Nat → Nat → Bool)
      (normOk : TileRecord → Except String Unit) (load : TileRecord → Except String RGBImage)
      (args : Args) (fs : FileState) (m : List TileRecord),
      args.desired_magnification ≤ ts.magnification →
      fs.tileCSV = some m →
      ∃ res, preprocessing path pp pid (some ts) tissue normOk load args fs = Except.ok res ∧
        res.ranTiling = false ∧
        res.fs.tileCSV = some m ∧
        (∃ b, res.summary = [⟨pid, path, some m.length, b⟩]) ∧
        (∀ nm, fs.normCSV = some nm → res.ranNorm = false) ∧
        (∀ bm, fs.infocusCSV = some bm →
          res.ranBlur = false ∧ res.summary = [⟨pid, path, some m.length, some bm.length⟩]) := by
  intro path pp pid ts tissue normOk load args fs m hmag htile
  have hrt := runTilingStage_skip ts pp tissue args htile
  refine ⟨_, preprocessing_run hmag hrt, rfl, ?_, ⟨_, rfl⟩, ?_, ?_⟩
  · rw [runBlurStage_fst_tileCSV, runNormStage_fst_tileCSV]
    exact htile
  · intro nm hnm
    rw [runNormStage_skip hnm]
  · intro bm hbm
    have h1 : (runNormStage pp normOk fs).1.infocusCSV = some bm := by
      rw [runNormStage_fst_infocusCSV]
      exact hbm
    rw [runBlurStage_skip h1]
    exact ⟨rfl, rfl⟩

/-- Witness for C2: with all three manifests persisted (one tiling row,
zero normalized rows, one in-focus row), a rerun skips every stage and
reports the persisted row counts. -/
theorem checkpoint_skip_row_count_witness :
    ∃ res, preprocessing "p" "o" "s" (some tsTiny) allTissue normOkAll loadFailAll argsTiny
        ⟨some [recTiny], some [], some [recTiny]⟩ = Except.ok res ∧
      res.ranTiling = false ∧
      res.fs.tileCSV = some [recTiny] ∧
      (∃ b, res.summary = [⟨"s", "p", some 1, b⟩]) ∧
      (∀ nm, (⟨some [recTiny], some [], some [recTiny]⟩ : FileState).normCSV = some nm →
        res.ranNorm = false) ∧
      (∀ bm, (⟨some [recTiny], some [], some [recTiny]⟩ : FileState).infocusCSV = some bm →
        res.ranBlur = false ∧ res.summary = [⟨"s", "p", some 1, some bm.length⟩]) :=
  checkpoint_skip_row_count "p" "o" "s" tsTiny allTissue normOkAll loadFailAll argsTiny
    ⟨some [recTiny], some [], some [recTiny]⟩ [recTiny] (by decide) rfl

/-- Counterexample for C3 as stated: (1) with overlap 300 > output size
256 the tiling stage raises the zero-step range error and preprocessing
propagates it past its own boundary instead of converting it to an
error record; (2) in a run whose only tile fails normalization, the
"Normalization" error record lands in the module-global errors list
while the error list preprocessing returns to its caller is empty, so
the caller does not receive all error records generated during the
slide's processing. -/
theorem preprocessing_raises_counterexample :
    preprocessing "p" "o" "s" (some tsQuad) allTissue normOkAll loadFailAll argsOv300 fsEmpty =
      Except.error "range() arg 3 must not be zero" ∧
    (preprocessing "p" "o" "s" (some tsTiny) allTissue normFailAll loadFailAll argsTiny
        fsEmpty).toOption.map
      (fun r => (r.error, r.globalErrors.map (fun e => e.stage))) =
      some ([], ["Normalization"]) :=
  ⟨rfl, rfl⟩

/-- C3 (amended): preprocessing catches no stage-level exceptions, but
whenever the tiling stride is well-defined (overlap zero or at most the
output size, positive target magnification and output size) it completes
normally, returning exactly one outcome record together with the error
records it itself creates (only stages "Slide Opening" or "Tiling");
per-tile error records produced inside the Normalization and Blur
stages are accumulated in the module-global errors list (with stages
"Normalization" or "Blur filter.") and are not part of the returned
error list. -/
theorem preprocessing_boundary_amended :
    ∀ (path pp pid : String) (slideOpt : Option TissueSlide) (tissue : Nat → Nat → Bool)
      (normOk : TileRecord → Except String Unit) (load : TileRecord → Except String RGBImage)
      (args : Args) (fs : FileState),
      (args.overlap = 0 ∨ args.overlap ≤ args.desired_size) →
      0 < args.desired_magnification → 0 < args.desired_size →
      ∃ res, preprocessing path pp pid slideOpt tissue normOk load args fs = Except.ok res ∧
        res.summary.length = 1 ∧
        (∀ e ∈ res.error, e.stage = "Slide Opening" ∨ e.stage = "Tiling") ∧
        (∀ e ∈ res.globalErrors, e.stage = "Normalization" ∨ e.stage = "Blur filter.") := by
  intro path pp pid slideOpt tissue normOk load args fs hov hmag hds
  cases slideOpt with
  | none =>
    refine ⟨_, rfl, rfl, ?_, ?_⟩
    · intro e he
      simp only [List.mem_singleton] at he
      subst he
      exact Or.inl rfl
    · intro e he
      simp at he
  | some ts =>
    by_cases hm : args.desired_magnification ≤ ts.magnification
    · cases hc : fs.tileCSV with
      | some m =>
        have hrt := runTilingStage_skip ts pp tissue args hc
        refine ⟨_, preprocessing_run hm hrt, rfl, ?_, ?_⟩
        · intro e he
          simp at he
        · intro e he
          simp only [List.nil_append, List.mem_append] at he
          rcases he with h1 | h1
          · exact Or.inl (runNormStage_errors_stage h1)
          · exact Or.inr (runBlurStage_errors_stage h1)
      | none =>
        obtain ⟨tres, htl, herr, -, -⟩ := tiling_ok_normal hmag hm hds hov
        have hrt := runTilingStage_run hc htl
        refine ⟨_, preprocessing_run hm hrt, rfl, ?_, ?_⟩
        · intro e he
          simp at he
        · intro e he
          rw [herr] at he
          simp only [List.nil_append, List.mem_append] at he
          rcases he with h1 | h1
          · exact Or.inl (runNormStage_errors_stage h1)
          · exact Or.inr (runBlurStage_errors_stage h1)
    · refine ⟨_, preprocessing_magfail hm, rfl, ?_, ?_⟩
      · intro e he
        simp only [List.mem_singleton] at he
        subst he
        exact Or.inr rfl
      · intro e he
        simp at he

/-- Witness for C3 (amended): a fresh run over the fixture slide whose
only tile fails normalization completes normally with one outcome
record, an empty returned error list, and only Normalization-stage
records in the global list. -/
theorem preprocessing_boundary_amended_witness :
    ∃ res, preprocessing "p" "o" "s" (some tsTiny) allTissue normFailAll loadFailAll argsTiny
        fsEmpty = Except.ok res ∧
      res.summary.length = 1 ∧
      (∀ e ∈ res.error, e.stage = "Slide Opening" ∨ e.stage = "Tiling") ∧
      (∀ e ∈ res.globalErrors, e.stage = "Normalization" ∨ e.stage = "Blur filter.") :=
  preprocessing_boundary_amended "p" "o" "s" (some tsTiny) allTissue normFailAll loadFailAll
    argsTiny fsEmpty (Or.inl rfl) (by decide) (by decide)

/-- C10: every stage run that reaches its end writes its manifest CSV
unconditionally: a tiling run writes tile_information.csv exactly when
it returns a count (i.e. does not take the magnification early-return),
including runs accepting zero tiles; normalize_tiles and blurry_filter
always write their CSVs, including runs in which every tile fails; and
after any completed preprocessing run over an opened slide with an
admissible magnification, a rerun over the resulting output directory
skips all three stages. -/
theorem manifest_written_unconditionally :
    (∀ (ts : TissueSlide) (rp : String) (tissue : Nat → Nat → Bool) (ov ds mag : Nat)
        (res : TilingResult),
      tiling ts rp tissue ov ds mag = Except.ok res →
      (res.manifestWritten = true ↔ res.count.isSome = true)) ∧
    (∀ (tiles : List TileRecord) (rp : String) (normOk : TileRecord → Except String Unit),
      (normalize_tiles tiles rp normOk).manifestWritten = true) ∧
    (∀ (tiles : List TileRecord) (rp : String) (load : TileRecord → Except String RGBImage)
        (t : ℚ), (blurry_filter tiles rp load t).manifestWritten = true) ∧
    (∀ (path pp pid : String) (ts : TissueSlide) (tissue : Nat → Nat → Bool)
        (normOk : TileRecord → Except String Unit) (load : TileRecord → Except String RGBImage)
        (args : Args) (fs : FileState) (res : PreprocessResult),
      preprocessing path pp pid (some ts) tissue normOk load args fs = Except.ok res →
      args.desired_magnification ≤ ts.magnification →
      ∃ res2, preprocessing path pp pid (some ts) tissue normOk load args res.fs =
          Except.ok res2 ∧
        res2.ranTiling = false ∧ res2.ranNorm = false ∧ res2.ranBlur = false) := by
  refine ⟨?_, fun tiles rp normOk => rfl, fun tiles rp load t => rfl, ?_⟩
  · intro ts rp tissue ov ds mag res h
    cases hbs : best_size ts ds mag with
    | none =>
      rw [tiling_mag_fail hbs] at h
      obtain rfl := (Except.ok.inj h).symm
      simp
    | some size =>
      by_cases hst : strideOf size ds ov = 0
      · rw [tiling_raise hbs hst] at h
        exact Except.noConfusion h
      · rw [tiling_reduce hbs hst] at h
        obtain rfl := (Except.ok.inj h).symm
        simp
  · intro path pp pid ts tissue normOk load args fs res h hm
    cases hrt : runTilingStage ts pp tissue args fs with
    | error e =>
      rw [preprocessing_raise hm hrt] at h
      exact Except.noConfusion h
    | ok q =>
      obtain ⟨total, fs1, g1, ran1⟩ := q
      rw [preprocessing_run hm hrt] at h
      obtain rfl := (Except.ok.inj h).symm
      obtain ⟨ht1, -, -⟩ := runTilingStage_ok_fs hrt
      have htile3 :
          (runBlurStage pp load args.blur_threshold
            (runNormStage pp normOk fs1).1).2.1.tileCSV.isSome = true := by
        rw [runBlurStage_fst_tileCSV, runNormStage_fst_tileCSV]
        exact ht1
      have hnorm3 :
          (runBlurStage pp load args.blur_threshold
            (runNormStage pp normOk fs1).1).2.1.normCSV.isSome = true := by
        rw [runBlurStage_fst_normCSV]
        exact runNormStage_fst_normCSV_isSome pp normOk fs1
      have hinf3 :
          (runBlurStage pp load args.blur_threshold
            (runNormStage pp normOk fs1).1).2.1.infocusCSV.isSome = true :=
        runBlurStage_fst_infocusCSV_isSome pp load args.blur_threshold
          (runNormStage pp normOk fs1).1
      obtain ⟨m, hm3⟩ := Option.isSome_iff_exists.1 htile3
      obtain ⟨nm, hn3⟩ := Option.isSome_iff_exists.1 hnorm3
      obtain ⟨bm, hb3⟩ := Option.isSome_iff_exists.1 hinf3
      have hrt2 := runTilingStage_skip ts pp tissue args hm3
      refine ⟨_, preprocessing_run hm hrt2, rfl, ?_, ?_⟩
      · rw [runNormStage_skip hn3]
      · have h1 : (runNormStage pp normOk
            (runBlurStage pp load args.blur_threshold
              (runNormStage pp normOk fs1).1).2.1).1.infocusCSV = some bm := by
          rw [runNormStage_fst_infocusCSV]
          exact hb3
        rw [runBlurStage_skip h1]

/-- Witness for C10: a fresh run over the fixture slide in which the
single accepted tile fails normalization (so the normalized manifest is
empty, header only) still writes all three manifests, and the rerun over
the resulting directory recomputes nothing. -/
theorem manifest_written_unconditionally_witness :
    ∃ res2, preprocessing "p" "o" "s" (some tsTiny) allTissue normFailAll loadFailAll argsTiny
        resFirstRun.fs = Except.ok res2 ∧
      res2.ranTiling = false ∧ res2.ranNorm = false ∧ res2.ranBlur = false :=
  manifest_written_unconditionally.2.2.2 "p" "o" "s" tsTiny allTissue normFailAll loadFailAll
    argsTiny fsEmpty resFirstRun rfl (by decide)
